import Mathlib

/-!
Verification of the `env.py` fixture generator.

The program builds a list of 200 cluster records (10 regions × 20 cluster
slots), prints them as indented JSON to standard output, and writes the same
JSON to a file `env.json`.  This file embeds the program shallowly in Lean:
the record construction is a pure function, the JSON renderer mirrors
`json.dumps(..., indent=2)` on the concrete shape produced (a non-empty list
of flat objects with string values), and the two I/O side effects are
modelled as an event trace parameterised by a world that can inject a
filesystem error at the file write.
-/

set_option maxRecDepth 100000

namespace EnvGen

/-- One element of the generated dataset, mirroring the dict literal built in
`env.py` lines 16–24 (field order preserved for serialization). -/
structure ClusterRecord where
  region : String
  name : String
  type : String
  urlPattern : String
  displayName : String
  regionalUrlPattern : String
  clusterType : String
deriving DecidableEq, Repr, Inhabited

/-- The region names, `regions = [f"R{i}" for i in range(1, 11)]`
(env.py line 3). -/
def regions : List String :=
  (List.range' 1 10).map (fun i => "R" ++ toString i)

/-- The tier names, `types = ["DEV", "TEST", "STG", "PRD"]` (env.py line 4). -/
def types : List String :=
  ["DEV", "TEST", "STG", "PRD"]

/-- The environment tier of the region at zero-based position `idx`:
`env = types[idx % 4]` (env.py line 9). -/
def tierOf (idx : Nat) : String :=
  types.getD (idx % 4) ""

/-- ASCII lower-casing of one character, as Python's `str.lower` acts on the
(pure-ASCII) strings of this program. -/
def lowerChar (c : Char) : Char :=
  if 'A' ≤ c ∧ c ≤ 'Z' then Char.ofNat (c.toNat + 32) else c

/-- Python's `s.lower()` on the ASCII strings of this program: lower-case each
character. -/
def pyLower (s : String) : String :=
  ⟨s.data.map lowerChar⟩

/-- Record construction for one `(region, env, c)` combination
(env.py lines 12–24). -/
def mkRecord (region env : String) (c : Nat) : ClusterRecord :=
  let cluster_type := if c ≤ 10 then "Gen1" else "Gen2"
  let name := "C" ++ toString c
  let env_lower := pyLower env
  { region := region
    name := name
    type := env
    urlPattern := "https://{api}." ++ pyLower name ++ "." ++ env_lower ++ ".example.com"
    displayName := name
    regionalUrlPattern := "https://{api}." ++ env_lower ++ ".example.com"
    clusterType := cluster_type }

/-- The full generated sequence `data` (env.py lines 6–24): for each region in
order (with its zero-based index) and each cluster index `c` in `1..20`,
append one record. -/
def data : List ClusterRecord :=
  regions.enum.flatMap (fun p =>
    (List.range' 1 20).map (fun c => mkRecord p.2 (tierOf p.1) c))

/-- Decimal value of a list of digit characters. -/
def digitsToNat (l : List Char) : Nat :=
  l.foldl (fun acc c => 10 * acc + (c.toNat - 48)) 0

/-- Numeric suffix of a record's `name` (the decimal number after the leading
`C`). -/
def nameSuffix (r : ClusterRecord) : Nat :=
  digitsToNat (r.name.data.drop 1)

/-- Holds iff `needle` occurs as a contiguous run inside `hay`. -/
def hasSubstr (needle hay : List Char) : Bool :=
  hay.tails.any (fun t => needle.isPrefixOf t)

/-! ## JSON rendering and the modelled I/O of the program

The tail of `env.py` (lines 26–30) renders `data` twice with
`json.dumps(data, indent=2)` / `json.dump(data, f, indent=2)`: once to
standard output via `print` (which appends a newline to what it is given)
and once into the file `env.json`.  The renderer below reproduces the
`indent=2` output of CPython's `json` module on the shape at hand — a
non-empty list of non-empty ordered string-valued objects. -/

/-- Hexadecimal digit character for a value below 16 (lower-case letters, as
CPython emits them). -/
def hexDigit (n : Nat) : Char :=
  if n < 10 then Char.ofNat (48 + n) else Char.ofNat (87 + n)

/-- Four-digit hexadecimal rendering of a code point below 2^16. -/
def hex4 (n : Nat) : String :=
  ⟨[hexDigit (n / 4096 % 16), hexDigit (n / 256 % 16), hexDigit (n / 16 % 16),
    hexDigit (n % 16)]⟩

/-- JSON escaping of one character as `json.dumps` (with its default
`ensure_ascii=True`) performs it. -/
def escapeChar (c : Char) : String :=
  if c = '"' then "\\\""
  else if c = '\\' then "\\\\"
  else if c = '\n' then "\\n"
  else if c = '\t' then "\\t"
  else if c = '\r' then "\\r"
  else if c = '\x08' then "\\b"
  else if c = '\x0c' then "\\f"
  else if c.toNat < 32 ∨ c.toNat > 126 then "\\u" ++ hex4 c.toNat
  else String.singleton c

/-- JSON rendering of a string value: escaped and wrapped in quotes. -/
def escapeString (s : String) : String :=
  "\"" ++ String.join (s.data.map escapeChar) ++ "\""

/-- The key/value pairs of one record, in the insertion order of the dict
literal of env.py lines 16–24 (CPython dicts preserve insertion order, and
`json.dumps` serializes keys in that order). -/
def fieldsOf (r : ClusterRecord) : List (String × String) :=
  [("region", r.region), ("name", r.name), ("type", r.type),
   ("urlPattern", r.urlPattern), ("displayName", r.displayName),
   ("regionalUrlPattern", r.regionalUrlPattern), ("clusterType", r.clusterType)]

/-- One record rendered as a JSON object at nesting depth 1 with
`indent=2`: the opening brace sits behind the 2-space item indent written by
the enclosing array, keys are indented 4 spaces, and the closing brace 2. -/
def dumpRecord (r : ClusterRecord) : String :=
  "\x7b\n" ++
    String.intercalate ",\n"
      ((fieldsOf r).map (fun kv => "    " ++ escapeString kv.1 ++ ": " ++ escapeString kv.2)) ++
    "\n  \x7d"

/-- The text `json.dumps(l, indent=2)` produces for the record list. -/
def dumps (l : List ClusterRecord) : String :=
  match l with
  | [] => "[]"
  | _ => "[\n" ++ String.intercalate ",\n" (l.map (fun r => "  " ++ dumpRecord r)) ++ "\n]"

/-- The bytes `json.dump(data, f, indent=2)` writes into `env.json`
(env.py lines 29–30). -/
def fileText : String :=
  dumps data

/-- The bytes `print(json.dumps(data, indent=2))` writes to standard output
(env.py line 26): the rendered JSON plus the newline `print` appends. -/
def stdoutText : String :=
  dumps data ++ "\n"

/-- An observable I/O effect of a run. -/
inductive Event where
  | stdoutWrite (bytes : String)
  | fileWrite (path : String) (bytes : String)
deriving DecidableEq, Repr

/-- How the process ends: cleanly, or by an unhandled exception (CPython
exits with a non-zero status and prints the failure description). -/
inductive ExitStatus where
  | success
  | failure (msg : String)
deriving DecidableEq, Repr

/-- The world a run executes in.  The program reads none of the ambient
inputs (no stdin, no environment variables, no clock); the only
environmental interaction that can affect it is a filesystem error raised
when `env.json` is opened for writing or written (env.py lines 29–30),
modelled by `fsError`. -/
structure World where
  stdinData : String
  envVars : List (String × String)
  clock : Nat
  fsError : Option String

/-- The observable behaviour of one invocation of env.py: the stdout write
of line 26 always happens first; then the file write of lines 29–30 either
succeeds, or raises the world's filesystem error, which no handler catches,
so it propagates and the process exits with a failure status carrying the
error description. -/
def run (w : World) : List Event × ExitStatus :=
  let printed := [Event.stdoutWrite stdoutText]
  match w.fsError with
  | some e => (printed, ExitStatus.failure e)
  | none => (printed ++ [Event.fileWrite "env.json" fileText], ExitStatus.success)

/-- The sequence of byte strings written to standard output in a trace. -/
def stdoutOf (events : List Event) : List String :=
  events.filterMap (fun e =>
    match e with
    | Event.stdoutWrite s => some s
    | Event.fileWrite _ _ => none)

end EnvGen

namespace EnvGen

/-! ## Theorems -/

/-- C1: the generated sequence contains exactly 200 records (10 regions × 20
cluster slots), emitted in region-major order: for positions `i < j` the
region of the earlier record sits at a position no later than that of the
later record, and within each region the 20 records appear with cluster
indices 1 through 20 in increasing order. -/
theorem c1_record_count_and_order :
    data.length = 200 ∧
    (∀ i j, i < j → j < data.length →
      regions.indexOf (data.getD i default).region ≤
        regions.indexOf (data.getD j default).region) ∧
    (∀ reg ∈ regions,
      (data.filter (fun r => r.region = reg)).map nameSuffix = List.range' 1 20) := by
  refine ⟨by decide, ?_, by decide⟩
  have hpos : ∀ k, k < 200 → regions.indexOf (data.getD k default).region = k / 20 := by
    decide
  have hlen : data.length = 200 := by decide
  intro i j hij hj
  rw [hlen] at hj
  rw [hpos i (lt_trans hij hj), hpos j hj]
  exact Nat.div_le_div_right (le_of_lt hij)

/-- C1 witness: concrete instances of the ordering facts. -/
theorem c1_record_count_and_order_witness :
    regions.indexOf (data.getD 0 default).region ≤
      regions.indexOf (data.getD 199 default).region ∧
    (data.filter (fun r => r.region = "R3")).map nameSuffix = List.range' 1 20 :=
  ⟨c1_record_count_and_order.2.1 0 199 (by decide) (by decide),
   c1_record_count_and_order.2.2 "R3" (by decide)⟩

/-- C3: every record of the region at zero-based position `idx` has `type`
equal to `types[idx % 4]`; in particular records of R1 have type DEV, of R2
TEST, of R3 STG, of R4 PRD, of R5 DEV, and of R10 TEST. -/
theorem c3_tier_assignment :
    (∀ idx, idx < 10 → ∀ r ∈ data,
      r.region = regions.getD idx "" → r.type = types.getD (idx % 4) "") ∧
    (∀ r ∈ data,
      (r.region = "R1" → r.type = "DEV") ∧ (r.region = "R2" → r.type = "TEST") ∧
      (r.region = "R3" → r.type = "STG") ∧ (r.region = "R4" → r.type = "PRD") ∧
      (r.region = "R5" → r.type = "DEV") ∧ (r.region = "R10" → r.type = "TEST")) :=
  ⟨by decide, by decide⟩

/-- C3 witness: the first record of R1 gets tier `types[0]`, and the first
record of R2 gets TEST. -/
theorem c3_tier_assignment_witness :
    (data.getD 0 default).type = types.getD (0 % 4) "" ∧
    (data.getD 20 default).type = "TEST" :=
  ⟨c3_tier_assignment.1 0 (by decide) (data.getD 0 default) (by decide) (by decide),
   (c3_tier_assignment.2 (data.getD 20 default) (by decide)).2.1 (by decide)⟩

/-- C4: every record's `urlPattern` is `https://` + `{api}` + `.` + its
lower-cased name + `.` + its lower-cased tier + `.example.com`, its
`regionalUrlPattern` is the same without the name component, the placeholder
`{api}` occurs literally in both fields, and a record named C5 with tier DEV
has urlPattern `https://` + `{api}` + `.c5.dev.example.com`. -/
theorem c4_url_patterns :
    ∀ r ∈ data,
      r.urlPattern =
        "https://{api}." ++ pyLower r.name ++ "." ++ pyLower r.type ++ ".example.com" ∧
      r.regionalUrlPattern = "https://{api}." ++ pyLower r.type ++ ".example.com" ∧
      hasSubstr "{api}".data r.urlPattern.data = true ∧
      hasSubstr "{api}".data r.regionalUrlPattern.data = true ∧
      (r.name = "C5" → r.type = "DEV" →
        r.urlPattern = "https://{api}.c5.dev.example.com") := by
  decide

/-- C4 witness: the record at position 4 is the C5 of DEV-tier region R1 and
carries the spelled-out pattern. -/
theorem c4_url_patterns_witness :
    (data.getD 4 default).urlPattern = "https://{api}.c5.dev.example.com" :=
  (c4_url_patterns (data.getD 4 default) (by decide)).2.2.2.2 (by decide) (by decide)

/-- C5: every record's `clusterType` is Gen1 when the numeric suffix of its
name is at most 10, and Gen2 otherwise. -/
theorem c5_cluster_generation :
    ∀ r ∈ data, r.clusterType = if nameSuffix r ≤ 10 then "Gen1" else "Gen2" := by
  decide

/-- C5 witness: the record at position 10 (name C11) is Gen2. -/
theorem c5_cluster_generation_witness :
    (data.getD 10 default).clusterType =
      if nameSuffix (data.getD 10 default) ≤ 10 then "Gen1" else "Gen2" :=
  c5_cluster_generation (data.getD 10 default) (by decide)

/-- C6: any two records with the same region agree on `type` and on
`regionalUrlPattern`, and every region owns exactly 20 records. -/
theorem c6_region_uniformity :
    (∀ r ∈ data, ∀ s ∈ data, r.region = s.region →
      r.type = s.type ∧ r.regionalUrlPattern = s.regionalUrlPattern) ∧
    (∀ reg ∈ regions, (data.filter (fun r => r.region = reg)).length = 20) := by
  have hfix : ∀ r ∈ data,
      r.type = types.getD (regions.indexOf r.region % 4) "" ∧
      r.regionalUrlPattern =
        "https://{api}." ++ pyLower (types.getD (regions.indexOf r.region % 4) "") ++
          ".example.com" := by
    decide
  refine ⟨?_, by decide⟩
  intro r hr s hs hreg
  obtain ⟨hrt, hru⟩ := hfix r hr
  obtain ⟨hst, hsu⟩ := hfix s hs
  rw [hrt, hru, hst, hsu, hreg]
  exact ⟨rfl, rfl⟩

/-- C6 witness: the records at positions 3 and 17 share region R1 and agree
on tier and regional pattern. -/
theorem c6_region_uniformity_witness :
    (data.getD 3 default).type = (data.getD 17 default).type ∧
    (data.getD 3 default).regionalUrlPattern = (data.getD 17 default).regionalUrlPattern :=
  c6_region_uniformity.1 (data.getD 3 default) (by decide) (data.getD 17 default)
    (by decide) (by decide)

/-- C7: the generator is deterministic — the stdout writes (the rendered
JSON text) of any two invocations coincide whatever the ambient worlds are,
and two invocations whose file writes both succeed have identical observable
behaviour. -/
theorem c7_determinism :
    (∀ w1 w2 : World, stdoutOf (run w1).1 = stdoutOf (run w2).1) ∧
    (∀ w1 w2 : World, w1.fsError = none → w2.fsError = none → run w1 = run w2) := by
  constructor
  · intro w1 w2
    cases h1 : w1.fsError <;> cases h2 : w2.fsError <;> simp [run, stdoutOf, h1, h2]
  · intro w1 w2 h1 h2
    simp [run, h1, h2]

/-- C7 witness: two concrete worlds differing in stdin, environment
variables and clock yield the same stdout writes and the same behaviour. -/
theorem c7_determinism_witness :
    stdoutOf (run ⟨"input", [("HOME", "/a")], 41, none⟩).1 =
      stdoutOf (run ⟨"", [], 7, none⟩).1 ∧
    run ⟨"input", [("HOME", "/a")], 41, none⟩ = run ⟨"", [], 7, none⟩ :=
  ⟨c7_determinism.1 ⟨"input", [("HOME", "/a")], 41, none⟩ ⟨"", [], 7, none⟩,
   c7_determinism.2 ⟨"input", [("HOME", "/a")], 41, none⟩ ⟨"", [], 7, none⟩ rfl rfl⟩

/-- C8: every record's `displayName` equals its `name`. -/
theorem c8_display_name :
    ∀ r ∈ data, r.displayName = r.name := by
  decide

/-- C8 witness: the record at position 7. -/
theorem c8_display_name_witness :
    (data.getD 7 default).displayName = (data.getD 7 default).name :=
  c8_display_name (data.getD 7 default) (by decide)

/-- C2 counterexample: in a successful run the stdout write precedes the
file write, but the bytes written to standard output are not equal to the
bytes written to `env.json` — `print` appends a trailing newline to the
rendered JSON, while `json.dump` writes the rendered JSON alone. -/
theorem c2_stdout_file_counterexample :
    (run ⟨"", [], 0, none⟩).1 =
      [Event.stdoutWrite stdoutText, Event.fileWrite "env.json" fileText] ∧
    stdoutText ≠ fileText := by
  refine ⟨rfl, ?_⟩
  intro h
  have hlen := congrArg String.length h
  rw [stdoutText, fileText, String.length_append] at hlen
  have hone : ("\n" : String).length = 1 := rfl
  omega

/-- C2 (amended): the bytes written to `env.json` equal the text written to
standard output with the single trailing newline appended by `print`
removed — equivalently, stdout receives the file bytes followed by a
newline — and the stdout write happens before the file write. -/
theorem c2_stdout_file_relation :
    ∀ w : World, w.fsError = none →
      (run w).1 =
        [Event.stdoutWrite (fileText ++ "\n"), Event.fileWrite "env.json" fileText] := by
  intro w h
  simp [run, h, stdoutText, fileText]

/-- C2 witness: the relation at a concrete world. -/
theorem c2_stdout_file_relation_witness :
    (run ⟨"", [], 0, none⟩).1 =
      [Event.stdoutWrite (fileText ++ "\n"), Event.fileWrite "env.json" fileText] :=
  c2_stdout_file_relation ⟨"", [], 0, none⟩ rfl

/-- C9: a run exits successfully exactly when no filesystem error strikes
the `env.json` write; a filesystem error propagates unhandled into a
non-zero exit carrying the error description; and when the write succeeds
the behaviour is exactly the two writes with a successful exit — no error
branch is reachable. -/
theorem c9_error_handling :
    ∀ w : World,
      ((run w).2 = ExitStatus.success ↔ w.fsError = none) ∧
      (∀ e, w.fsError = some e → (run w).2 = ExitStatus.failure e) ∧
      (w.fsError = none →
        (run w).1 = [Event.stdoutWrite stdoutText, Event.fileWrite "env.json" fileText] ∧
        (run w).2 = ExitStatus.success) := by
  intro w
  cases h : w.fsError <;> simp [run, h]

/-- C9 witness: a failing write propagates its message; a clean write exits
successfully. -/
theorem c9_error_handling_witness :
    (run ⟨"", [], 0, some "EACCES"⟩).2 = ExitStatus.failure "EACCES" ∧
    (run ⟨"", [], 0, none⟩).2 = ExitStatus.success :=
  ⟨(c9_error_handling ⟨"", [], 0, some "EACCES"⟩).2.1 "EACCES" rfl,
   ((c9_error_handling ⟨"", [], 0, none⟩).2.2 rfl).2⟩

/-- C10: `(region, name)` is a unique key — records at distinct positions
differ in region or in name — and every region holds the names C1 through
C20 exactly once. -/
theorem c10_unique_key :
    (∀ i j, i < data.length → j < data.length → i ≠ j →
      (data.getD i default).region ≠ (data.getD j default).region ∨
      (data.getD i default).name ≠ (data.getD j default).name) ∧
    (∀ reg ∈ regions,
      (data.filter (fun r => r.region = reg)).map (fun r => r.name) =
        (List.range' 1 20).map (fun c => "C" ++ toString c)) := by
  have hlen : data.length = 200 := by decide
  have hchar : ∀ k, k < 200 →
      (data.getD k default).region = regions.getD (k / 20) "" ∧
      (data.getD k default).name = "C" ++ toString (k % 20 + 1) := by
    decide
  have hreg : ∀ a, a < 10 → ∀ b, b < 10 →
      regions.getD a "" = regions.getD b "" → a = b := by decide
  have hname : ∀ a, a < 20 → ∀ b, b < 20 →
      ("C" ++ toString (a + 1) : String) = "C" ++ toString (b + 1) → a = b := by decide
  refine ⟨?_, by decide⟩
  intro i j hi hj hne
  rw [hlen] at hi hj
  by_cases hdiv : i / 20 = j / 20
  · right
    rw [(hchar i hi).2, (hchar j hj).2]
    intro hEq
    have hmod : i % 20 = j % 20 := hname (i % 20) (by omega) (j % 20) (by omega) hEq
    exact hne (by omega)
  · left
    rw [(hchar i hi).1, (hchar j hj).1]
    intro hEq
    exact hdiv (hreg (i / 20) (by omega) (j / 20) (by omega) hEq)

/-- C10 witness: the records at positions 0 and 1 differ in region or
name. -/
theorem c10_unique_key_witness :
    (data.getD 0 default).region ≠ (data.getD 1 default).region ∨
    (data.getD 0 default).name ≠ (data.getD 1 default).name :=
  c10_unique_key.1 0 1 (by decide) (by decide) (by decide)

end EnvGen
